import Mathlib

/-!
Verification of the two-level drowsiness `AlertEngine` from
`src/modular/alerter.py` (configuration constants from `src/modular/config.py`).

Timestamps and metric values are modelled as rationals; all timestamps and
thresholds exercised here are exactly representable, so rational arithmetic
agrees with the source's float arithmetic on every scenario considered.
Thread/audio bookkeeping (`alert_thread`, `stop_alert`, `audio_enabled`) and
the logging payload `last_alert_details` are the concurrency/IO boundary of
the class and are omitted; every other attribute of the Python object is a
field of the structure below.
-/

/-- Configuration constant `LEVEL1_DURATION_SECONDS = 3` from config.py. -/
def LEVEL1_DURATION_SECONDS : ℚ := 3

/-- Configuration constant `LEVEL2_DURATION_SECONDS = 10` from config.py. -/
def LEVEL2_DURATION_SECONDS : ℚ := 10

/-- Configuration constant `YAWN_ALERT_WINDOW_SECONDS = 30` from config.py. -/
def YAWN_ALERT_WINDOW_SECONDS : ℚ := 30

/-- Configuration constant `YAWN_ALERT_THRESHOLD = 2` from config.py. -/
def YAWN_ALERT_THRESHOLD : ℕ := 2

/-- Configuration constant `BLINK_RATE_LEVEL1_THRESHOLD = 30.0` from config.py. -/
def BLINK_RATE_LEVEL1_THRESHOLD : ℚ := 30

/-- Configuration constant `MICROSLEEP_LEVEL1_TRIGGER = True` from config.py. -/
def MICROSLEEP_LEVEL1_TRIGGER : Bool := true

/-- Configuration constant `PERCLOS_LEVEL1_MIN = 15.0` from config.py. -/
def PERCLOS_LEVEL1_MIN : ℚ := 15

/-- Configuration constant `PERCLOS_LEVEL1_MAX = 40.0` from config.py. -/
def PERCLOS_LEVEL1_MAX : ℚ := 40

/-- Configuration constant `LEVEL1_FREQUENCY_WINDOW_SECONDS = 300` from config.py. -/
def LEVEL1_FREQUENCY_WINDOW_SECONDS : ℚ := 300

/-- Configuration constant `LEVEL1_FREQUENCY_THRESHOLD = 3` from config.py. -/
def LEVEL1_FREQUENCY_THRESHOLD : ℕ := 3

/-- Configuration constant `EAR_CLOSED_THRESHOLD = 0.16` from config.py. -/
def EAR_CLOSED_THRESHOLD : ℚ := 16 / 100

/-- Mutable attributes of the Python class `AlertEngine` (alerter.py,
`__init__`), in declaration order.  Thread/audio fields and
`last_alert_details` are omitted (see module docstring). -/
structure AlertEngine where
  level1_start : Option ℚ
  level1_triggered_at : Option ℚ
  level2_triggered : Bool
  level1_active : Bool
  level2_active : Bool
  yawn_timestamps : List ℚ
  yawns_since_level1 : ℕ
  level1_trigger_history : List ℚ
  last_alert_reason : Option String
  deriving Repr, DecidableEq

namespace AlertEngine

/-- The freshly constructed engine (`AlertEngine.__init__`). -/
def init : AlertEngine :=
  { level1_start := none
    level1_triggered_at := none
    level2_triggered := false
    level1_active := false
    level2_active := false
    yawn_timestamps := []
    yawns_since_level1 := 0
    level1_trigger_history := []
    last_alert_reason := none }

/-- `AlertEngine.DROWSY_STATES` (alerter.py line 78). -/
def DROWSY_STATES : List String :=
  ["SLIGHTLY_DROWSY", "DROWSY", "VERY_DROWSY", "INATTENTIVE"]

/-- One iteration of the yawn-ingestion loop at the top of
`AlertEngine.process` (alerter.py lines 131-136): append `ts` if not already
tracked, and bump `yawns_since_level1` when Level 1 is active-since and the
new yawn is not older than `level1_triggered_at`. -/
def ingestYawnOne (e : AlertEngine) (ts : ℚ) : AlertEngine :=
  if ts ∈ e.yawn_timestamps then e
  else
    let e1 := { e with yawn_timestamps := e.yawn_timestamps ++ [ts] }
    match e1.level1_triggered_at with
    | none => e1
    | some t1 =>
        if t1 ≤ ts then { e1 with yawns_since_level1 := e1.yawns_since_level1 + 1 }
        else e1

/-- The `if yawn_timestamps is not None: for ts in yawn_timestamps: ...`
ingestion phase of `AlertEngine.process` (alerter.py lines 128-136). -/
def ingestYawns (e : AlertEngine) (yawn_args : Option (List ℚ)) : AlertEngine :=
  match yawn_args with
  | none => e
  | some l => l.foldl ingestYawnOne e

/-- `AlertEngine._check_yawn_trigger` (alerter.py lines 253-279): prunes
`yawn_timestamps` to the trailing 30 s window, then reports whether more than
`YAWN_ALERT_THRESHOLD` yawns remain in that window.  Returns the pruned list
(the method mutates `self.yawn_timestamps`) together with the boolean. -/
def check_yawn_trigger (yawns : List ℚ) (timestamp : ℚ) : List ℚ × Bool :=
  let pruned := yawns.filter fun ts => decide (timestamp - YAWN_ALERT_WINDOW_SECONDS ≤ ts)
  let yawns_in_window :=
    pruned.countP fun ts => decide (timestamp - YAWN_ALERT_WINDOW_SECONDS ≤ ts)
  (pruned, decide (YAWN_ALERT_THRESHOLD < yawns_in_window))

/-- `AlertEngine._check_blink_rate_trigger` (alerter.py lines 281-297). -/
def check_blink_rate_trigger (blink_rate : Option ℚ) : Bool :=
  match blink_rate with
  | none => false
  | some r => decide (BLINK_RATE_LEVEL1_THRESHOLD ≤ r)

/-- `AlertEngine._check_microsleep_trigger` (alerter.py lines 299-314);
`microsleep_count` arrives as a count, `None` is modelled as 0 (the call
sites always pass a count). -/
def check_microsleep_trigger (microsleep_count : ℕ) : Bool :=
  MICROSLEEP_LEVEL1_TRIGGER && decide (0 < microsleep_count)

/-- `AlertEngine._check_perclos_trigger` (alerter.py lines 316-333). -/
def check_perclos_trigger (perclos : Option ℚ) : Bool :=
  match perclos with
  | none => false
  | some p => decide (PERCLOS_LEVEL1_MIN ≤ p) && decide (p ≤ PERCLOS_LEVEL1_MAX)

/-- `AlertEngine._check_frequent_level1_trigger` (alerter.py lines 335-359):
prunes `level1_trigger_history` to the trailing 300 s window and reports
whether at least `LEVEL1_FREQUENCY_THRESHOLD` activations remain. -/
def check_frequent_level1_trigger (history : List ℚ) (timestamp : ℚ) : List ℚ × Bool :=
  let pruned :=
    history.filter fun ts => decide (timestamp - LEVEL1_FREQUENCY_WINDOW_SECONDS ≤ ts)
  let level1_count :=
    pruned.countP fun ts => decide (timestamp - LEVEL1_FREQUENCY_WINDOW_SECONDS ≤ ts)
  (pruned, decide (LEVEL1_FREQUENCY_THRESHOLD ≤ level1_count))

/-- `AlertEngine.trigger_level1` (alerter.py lines 401-466).  The method is a
no-op when Level 1 is already active; otherwise it activates Level 1, records
`level1_triggered_at`, zeroes `yawns_since_level1`, appends to
`level1_trigger_history` and stores the reason.  When the reason is exactly
"yawn frequency" it calls `get_yawn_frequency`, which prunes
`yawn_timestamps` as a side effect; the remaining body only prints / stores
logging details / starts the alert thread. -/
def trigger_level1 (e : AlertEngine) (timestamp : ℚ) (reason : String) : AlertEngine :=
  if e.level1_active then e
  else
    let e1 := { e with
      level1_active := true
      level1_triggered_at := some timestamp
      yawns_since_level1 := 0
      level1_trigger_history := e.level1_trigger_history ++ [timestamp]
      last_alert_reason := some reason }
    if reason = "yawn frequency" then
      { e1 with yawn_timestamps :=
          e1.yawn_timestamps.filter fun ts =>
            decide (timestamp - YAWN_ALERT_WINDOW_SECONDS ≤ ts) }
    else e1

/-- `AlertEngine.trigger_level2` (alerter.py lines 468-513).  No-op when
Level 2 is already active; otherwise sets both Level-2 flags and stores the
reason (the timestamp argument only feeds logging, and the history scan in
the "frequent" branch builds a fresh list without mutating the field). -/
def trigger_level2 (e : AlertEngine) (reason : String) : AlertEngine :=
  if e.level2_active then e
  else
    { e with
      level2_active := true
      level2_triggered := true
      last_alert_reason := some reason }

/-- `AlertEngine.reset` (alerter.py lines 557-570).  The whole body is
guarded by `if self.level1_start is not None:`; when the guard fails the
method changes nothing.  `level1_trigger_history` is deliberately kept. -/
def reset (e : AlertEngine) : AlertEngine :=
  match e.level1_start with
  | none => e
  | some _ =>
      { e with
        level1_start := none
        level1_triggered_at := none
        level1_active := false
        level2_active := false
        yawn_timestamps := []
        yawns_since_level1 := 0 }

/-- `AlertEngine.manual_reset` (alerter.py lines 572-575): `reset()` followed
by unconditionally clearing `level2_triggered`. -/
def manual_reset (e : AlertEngine) : AlertEngine :=
  { reset e with level2_triggered := false }

/-- `AlertEngine.get_alert_level` (alerter.py lines 577-588). -/
def get_alert_level (e : AlertEngine) : ℕ :=
  if e.level2_active then 2
  else if e.level1_active then 1
  else 0

/-- Dwell phase of `AlertEngine.process` (alerter.py lines 160-182), run
when some Level-1 trigger is active this frame: start the dwell timer on its
first active frame, and once `LEVEL1_DURATION_SECONDS` of continuous trigger
activity have accumulated, fire Level 1 with the conjunction of every
currently-true trigger (fixed order yawn, blink-rate, PERCLOS, state). -/
def dwellPhase (e : AlertEngine) (timestamp : ℚ)
    (has_drowsiness_symptoms yawn_trigger blink_rate_trigger perclos_trigger : Bool) :
    AlertEngine :=
  -- lines 161-163
  let e := match e.level1_start with
           | none => { e with level1_start := some timestamp }
           | some _ => e
  let elapsed := timestamp - e.level1_start.getD 0
  -- lines 167-182
  if LEVEL1_DURATION_SECONDS ≤ elapsed ∧ e.level1_active = false then
    let triggers :=
      (if yawn_trigger then ["yawn frequency"] else []) ++
      (if blink_rate_trigger then ["excessive blink rate"] else []) ++
      (if perclos_trigger then ["high PERCLOS"] else []) ++
      (if has_drowsiness_symptoms then ["drowsiness symptoms"] else [])
    let trigger_reason :=
      if triggers.isEmpty then "drowsiness symptoms"
      else String.intercalate " + " triggers
    trigger_level1 e timestamp trigger_reason
  else e

/-- The in-branch reset condition of `AlertEngine.process` (alerter.py lines
184-197): when it holds, the engine resets and `process` returns early.
Because it demands all four triggers false while `process` only evaluates it
when some trigger is active, it can never hold there (dead code in the
source); it is translated nonetheless. -/
def resetCheck (e : AlertEngine) (timestamp : ℚ)
    (has_drowsiness_symptoms yawn_trigger blink_rate_trigger perclos_trigger : Bool) :
    Bool :=
  e.level1_active && e.level1_triggered_at.isSome &&
  !has_drowsiness_symptoms && !yawn_trigger && !blink_rate_trigger && !perclos_trigger &&
  decide (e.yawns_since_level1 = 0) &&
  decide ((5 : ℚ) ≤ timestamp - e.level1_triggered_at.getD 0)

/-- Escalation phase of `AlertEngine.process` (alerter.py lines 199-237):
the frequent-Level-1 check (which prunes the history and can escalate even
when Level 1 is not active), followed by the standard persistent-symptom
escalation once Level 1 has been active for `LEVEL2_DURATION_SECONDS`. -/
def escalationPhase (e : AlertEngine) (timestamp : ℚ)
    (has_drowsiness_symptoms yawn_trigger blink_rate_trigger perclos_trigger : Bool)
    (perclos ear : Option ℚ) : AlertEngine :=
  -- lines 199-206
  let freqRes := check_frequent_level1_trigger e.level1_trigger_history timestamp
  let e := { e with level1_trigger_history := freqRes.1 }
  let e :=
    if freqRes.2 = true ∧ e.level2_active = false then
      trigger_level2 e "frequent Level 1 alerts"
    else e
  -- lines 208-237
  if e.level1_active = true ∧ e.level1_triggered_at ≠ none then
    let level1_elapsed := timestamp - e.level1_triggered_at.getD 0
    if LEVEL2_DURATION_SECONDS ≤ level1_elapsed ∧ e.level2_active = false then
      let has_perclos_issue :=
        match perclos with
        | none => false
        | some p => decide (PERCLOS_LEVEL1_MIN ≤ p)
      let has_ear_issue :=
        match ear with
        | none => false
        | some r => decide (r < EAR_CLOSED_THRESHOLD)
      let should_escalate : Bool :=
        if has_drowsiness_symptoms then true
        else if yawn_trigger then
          decide (0 < e.yawns_since_level1) && (has_perclos_issue || has_ear_issue)
        else if blink_rate_trigger then true
        else if perclos_trigger then true
        else false
      if should_escalate = true then trigger_level2 e "persistent symptoms"
      else e
    else e
  else e

/-- The `else` branch of `AlertEngine.process` (alerter.py lines 238-251),
run when no Level-1 trigger is active this frame: reset when the state is
ALERT or NO_FACE, or when the state is some other non-drowsy string and a
trigger-born Level 1 is active. -/
def noTriggerBranch (e : AlertEngine) (state : String)
    (has_drowsiness_symptoms yawn_trigger blink_rate_trigger perclos_trigger : Bool) :
    AlertEngine :=
  if state = "ALERT" ∨ state = "NO_FACE" then
    if yawn_trigger = false ∧ blink_rate_trigger = false ∧ perclos_trigger = false then
      reset e
    else e
  else
    if yawn_trigger = false ∧ blink_rate_trigger = false ∧ perclos_trigger = false then
      if e.level1_active = true ∧ e.level1_triggered_at ≠ none then
        if has_drowsiness_symptoms = false then reset e else e
      else e
    else e

/-- `AlertEngine.process` (alerter.py lines 114-251), translated
branch-for-branch with the three inner blocks named `dwellPhase`,
`escalationPhase` and `noTriggerBranch`.  Arguments mirror the Python
signature `(state, timestamp, yawn_timestamps, perclos, blink_rate,
microsleep_count, ear)`; optional metrics are `Option ℚ` and
`microsleep_count` is the count (default 0 in the source). -/
def process (e : AlertEngine) (state : String) (timestamp : ℚ)
    (yawn_args : Option (List ℚ)) (perclos blink_rate : Option ℚ)
    (microsleep_count : ℕ) (ear : Option ℚ) : AlertEngine :=
  -- lines 128-136: ingest the supplied yawn timestamps
  let e := ingestYawns e yawn_args
  -- line 139
  let has_drowsiness_symptoms : Bool := DROWSY_STATES.contains state
  -- lines 142-145: evaluate the independent triggers (the yawn check prunes)
  let yawnRes := check_yawn_trigger e.yawn_timestamps timestamp
  let e := { e with yawn_timestamps := yawnRes.1 }
  let yawn_trigger := yawnRes.2
  let blink_rate_trigger := check_blink_rate_trigger blink_rate
  let microsleep_trigger := check_microsleep_trigger microsleep_count
  let perclos_trigger := check_perclos_trigger perclos
  -- lines 147-150: immediate microsleep path, early return
  if microsleep_trigger = true ∧ e.level1_active = false then
    trigger_level1 e timestamp "microsleep event"
  else
    -- lines 152-158
    let should_trigger_level1 :=
      has_drowsiness_symptoms || yawn_trigger || blink_rate_trigger || perclos_trigger
    if should_trigger_level1 = true then
      let e := dwellPhase e timestamp
        has_drowsiness_symptoms yawn_trigger blink_rate_trigger perclos_trigger
      -- lines 184-197: reset check with early return
      if resetCheck e timestamp
           has_drowsiness_symptoms yawn_trigger blink_rate_trigger perclos_trigger = true then
        reset e
      else
        escalationPhase e timestamp
          has_drowsiness_symptoms yawn_trigger blink_rate_trigger perclos_trigger perclos ear
    else
      noTriggerBranch e state
        has_drowsiness_symptoms yawn_trigger blink_rate_trigger perclos_trigger

/-- One frame of inputs for `process`, used to state properties about
arbitrary call sequences. -/
structure ProcessInput where
  state : String
  timestamp : ℚ
  yawn_args : Option (List ℚ)
  perclos : Option ℚ
  blink_rate : Option ℚ
  microsleep_count : ℕ
  ear : Option ℚ

/-- Run `process` on one recorded frame of inputs. -/
def processStep (e : AlertEngine) (i : ProcessInput) : AlertEngine :=
  process e i.state i.timestamp i.yawn_args i.perclos i.blink_rate i.microsleep_count i.ear

/-- The engine reached from `init` by the drowsy-only frame
`process(state="DROWSY", t)` with no optional metrics, as in Scenarios C/D. -/
def drowsyStep (e : AlertEngine) (t : ℚ) : AlertEngine :=
  process e "DROWSY" t none none none 0 none

/-- The engine obtained by a single microsleep frame from the fresh engine:
`process(state="ALERT", 0, microsleep_count=1)`.  Level 1 activates through
the early-return path of `process`, before `level1_start` is ever assigned. -/
def microsleepL1 : AlertEngine :=
  process init "ALERT" 0 none none none 1 none

end AlertEngine

open AlertEngine

section Helpers

/-- Folding a function over a list leaves the accumulator fixed when every
element of the list fixes it. -/
lemma foldl_fixed {α β : Type} (f : β → α → β) (b : β) :
    ∀ l : List α, (∀ a ∈ l, f b a = b) → l.foldl f b = b := by
  intro l
  induction l with
  | nil => intro _; rfl
  | cons a l ih =>
      intro h
      have ha : f b a = b := h a (by simp)
      simp only [List.foldl_cons, ha]
      exact ih fun x hx => h x (by simp [hx])

/-- `ingestYawnOne` touches only `yawn_timestamps` and `yawns_since_level1`. -/
lemma ingestYawnOne_frame (e : AlertEngine) (ts : ℚ) :
    (ingestYawnOne e ts).level1_start = e.level1_start ∧
    (ingestYawnOne e ts).level1_triggered_at = e.level1_triggered_at ∧
    (ingestYawnOne e ts).level2_triggered = e.level2_triggered ∧
    (ingestYawnOne e ts).level1_active = e.level1_active ∧
    (ingestYawnOne e ts).level2_active = e.level2_active ∧
    (ingestYawnOne e ts).level1_trigger_history = e.level1_trigger_history ∧
    (ingestYawnOne e ts).last_alert_reason = e.last_alert_reason := by
  unfold ingestYawnOne
  by_cases hm : ts ∈ e.yawn_timestamps
  · simp [hm]
  · rcases h : e.level1_triggered_at with _ | t1
    · simp [hm, h]
    · by_cases hle : t1 ≤ ts <;> simp [hm, h, hle]

/-- `ingestYawns` touches only `yawn_timestamps` and `yawns_since_level1`. -/
lemma ingestYawns_frame (e : AlertEngine) (ya : Option (List ℚ)) :
    (ingestYawns e ya).level1_start = e.level1_start ∧
    (ingestYawns e ya).level1_triggered_at = e.level1_triggered_at ∧
    (ingestYawns e ya).level2_triggered = e.level2_triggered ∧
    (ingestYawns e ya).level1_active = e.level1_active ∧
    (ingestYawns e ya).level2_active = e.level2_active ∧
    (ingestYawns e ya).level1_trigger_history = e.level1_trigger_history ∧
    (ingestYawns e ya).last_alert_reason = e.last_alert_reason := by
  cases ya with
  | none => exact ⟨rfl, rfl, rfl, rfl, rfl, rfl, rfl⟩
  | some l =>
      unfold ingestYawns
      induction l generalizing e with
      | nil => exact ⟨rfl, rfl, rfl, rfl, rfl, rfl, rfl⟩
      | cons a l ih =>
          simp only [List.foldl_cons]
          obtain ⟨h1, h2, h3, h4, h5, h6, h7⟩ := ih (ingestYawnOne e a)
          obtain ⟨g1, g2, g3, g4, g5, g6, g7⟩ := ingestYawnOne_frame e a
          exact ⟨h1.trans g1, h2.trans g2, h3.trans g3, h4.trans g4,
                 h5.trans g5, h6.trans g6, h7.trans g7⟩

/-- Ingesting a single yawn preserves distinctness of `yawn_timestamps`. -/
lemma ingestYawnOne_nodup (e : AlertEngine) (ts : ℚ)
    (h : e.yawn_timestamps.Nodup) : (ingestYawnOne e ts).yawn_timestamps.Nodup := by
  unfold ingestYawnOne
  by_cases hm : ts ∈ e.yawn_timestamps
  · simpa [hm] using h
  · have happ : (e.yawn_timestamps ++ [ts]).Nodup :=
      h.append (List.nodup_singleton ts) (by simp [hm])
    rcases ht : e.level1_triggered_at with _ | t1
    · simpa [hm, ht] using happ
    · by_cases hle : t1 ≤ ts <;> simpa [hm, ht, hle] using happ

/-- The ingestion phase preserves distinctness of `yawn_timestamps`. -/
lemma ingestYawns_nodup (e : AlertEngine) (ya : Option (List ℚ))
    (h : e.yawn_timestamps.Nodup) : (ingestYawns e ya).yawn_timestamps.Nodup := by
  cases ya with
  | none => exact h
  | some l =>
      unfold ingestYawns
      induction l generalizing e with
      | nil => exact h
      | cons a l ih =>
          simp only [List.foldl_cons]
          exact ih (ingestYawnOne e a) (ingestYawnOne_nodup e a h)

/-- `trigger_level1` preserves distinctness of `yawn_timestamps`. -/
lemma trigger_level1_yawns_nodup (e : AlertEngine) (t : ℚ) (r : String)
    (h : e.yawn_timestamps.Nodup) : (trigger_level1 e t r).yawn_timestamps.Nodup := by
  unfold trigger_level1
  repeat' split
  all_goals first
    | exact h
    | exact List.Nodup.filter _ h

/-- `trigger_level2` does not touch `yawn_timestamps`. -/
lemma trigger_level2_yawns (e : AlertEngine) (r : String) :
    (trigger_level2 e r).yawn_timestamps = e.yawn_timestamps := by
  unfold trigger_level2
  split <;> rfl

/-- `reset` preserves distinctness of `yawn_timestamps`. -/
lemma reset_yawns_nodup (e : AlertEngine)
    (h : e.yawn_timestamps.Nodup) : (AlertEngine.reset e).yawn_timestamps.Nodup := by
  unfold AlertEngine.reset
  split
  · exact h
  · exact List.nodup_nil

/-- Counting a filtered list with the filter's own predicate counts every
remaining element. -/
lemma countP_filter_self (p : ℚ → Bool) (l : List ℚ) :
    (l.filter p).countP p = (l.filter p).length :=
  List.countP_eq_length.2 fun _ ha => List.of_mem_filter ha

/-- A four-way disjunction of booleans being true falsifies the conjunction
of their negations (the shape of the dead in-branch reset condition). -/
lemma bool_negs_false (x y z w : Bool) (h : (x || y || z || w) = true) :
    (!x && !y && !z && !w) = false := by
  cases x <;> cases y <;> cases z <;> cases w <;> simp_all

/-- When Level 1 is already active, `dwellPhase` only (possibly) starts the
dwell timer: every field except `level1_start` is untouched. -/
lemma dwellPhase_of_active (e : AlertEngine) (t : ℚ) (a b c d : Bool)
    (h : e.level1_active = true) :
    (dwellPhase e t a b c d).level1_active = true ∧
    (dwellPhase e t a b c d).level1_triggered_at = e.level1_triggered_at ∧
    (dwellPhase e t a b c d).level2_active = e.level2_active ∧
    (dwellPhase e t a b c d).level2_triggered = e.level2_triggered ∧
    (dwellPhase e t a b c d).level1_trigger_history = e.level1_trigger_history ∧
    (dwellPhase e t a b c d).yawns_since_level1 = e.yawns_since_level1 ∧
    (dwellPhase e t a b c d).yawn_timestamps = e.yawn_timestamps ∧
    (dwellPhase e t a b c d).last_alert_reason = e.last_alert_reason := by
  unfold dwellPhase
  rcases hs : e.level1_start with _ | x <;> simp [hs, h]

/-- `trigger_level1` never touches the Level-2 flags or `level1_start`, and
can only append to the Level-1 trigger history. -/
lemma trigger_level1_frame (e : AlertEngine) (t : ℚ) (r : String) :
    (trigger_level1 e t r).level2_active = e.level2_active ∧
    (trigger_level1 e t r).level2_triggered = e.level2_triggered ∧
    (trigger_level1 e t r).level1_start = e.level1_start ∧
    ∃ l, (trigger_level1 e t r).level1_trigger_history =
      e.level1_trigger_history ++ l := by
  unfold trigger_level1
  split_ifs with h1 h2 <;> refine ⟨by simp, by simp, by simp, ?_⟩
  · exact ⟨[], by simp⟩
  · exact ⟨[t], by simp⟩
  · exact ⟨[t], by simp⟩

/-- `dwellPhase` never changes the Level-2 active flag. -/
lemma dwellPhase_level2_active (e : AlertEngine) (t : ℚ) (a b c d : Bool) :
    (dwellPhase e t a b c d).level2_active = e.level2_active := by
  unfold dwellPhase
  rcases hs : e.level1_start with _ | x <;> dsimp only <;> split_ifs <;>
    first
      | rfl
      | exact (trigger_level1_frame _ _ _).1

/-- `dwellPhase` can only append to the Level-1 trigger history. -/
lemma dwellPhase_history (e : AlertEngine) (t : ℚ) (a b c d : Bool) :
    ∃ l, (dwellPhase e t a b c d).level1_trigger_history =
      e.level1_trigger_history ++ l := by
  unfold dwellPhase
  rcases hs : e.level1_start with _ | x <;> dsimp only <;> split_ifs <;>
    first
      | exact (trigger_level1_frame _ _ _).2.2.2
      | exact ⟨[], by simp⟩

/-- When at least `LEVEL1_FREQUENCY_THRESHOLD` history entries lie in the
trailing window and Level 2 is not yet active, `escalationPhase` escalates
with the frequent-recurrence reason. -/
lemma escalationPhase_frequent (e : AlertEngine) (t : ℚ) (a b c d : Bool)
    (p r : Option ℚ)
    (hcount : LEVEL1_FREQUENCY_THRESHOLD ≤
      (e.level1_trigger_history.filter fun ts =>
        decide (t - LEVEL1_FREQUENCY_WINDOW_SECONDS ≤ ts)).length)
    (h2 : e.level2_active = false) :
    (escalationPhase e t a b c d p r).level2_active = true ∧
    (escalationPhase e t a b c d p r).last_alert_reason =
      some "frequent Level 1 alerts" := by
  have hfreq : (check_frequent_level1_trigger e.level1_trigger_history t).2 = true := by
    unfold check_frequent_level1_trigger
    simp only []
    rw [countP_filter_self]
    exact decide_eq_true hcount
  unfold escalationPhase trigger_level2
  simp only [hfreq, h2]
  split_ifs <;> simp_all

/-- When the frequent-recurrence condition does not hold but Level 1 has
been active for `LEVEL2_DURATION_SECONDS` and Level 2 is not yet active,
`escalationPhase` escalates exactly according to the persistent-symptom
chain of alerter.py lines 213-237. -/
lemma escalationPhase_standard (e : AlertEngine) (t t1 : ℚ) (a b c d : Bool)
    (p r : Option ℚ)
    (hcount : (e.level1_trigger_history.filter fun ts =>
        decide (t - LEVEL1_FREQUENCY_WINDOW_SECONDS ≤ ts)).length <
      LEVEL1_FREQUENCY_THRESHOLD)
    (hact : e.level1_active = true) (htrig : e.level1_triggered_at = some t1)
    (h10 : LEVEL2_DURATION_SECONDS ≤ t - t1) (h2 : e.level2_active = false) :
    (escalationPhase e t a b c d p r).level2_active =
      (if a then true
       else if b then
         decide (0 < e.yawns_since_level1) &&
           ((match p with | none => false | some v => decide (PERCLOS_LEVEL1_MIN ≤ v)) ||
            (match r with | none => false | some v => decide (v < EAR_CLOSED_THRESHOLD)))
       else if c then true
       else if d then true
       else false) := by
  have hfreq : (check_frequent_level1_trigger e.level1_trigger_history t).2 = false := by
    unfold check_frequent_level1_trigger
    simp only []
    rw [countP_filter_self]
    exact decide_eq_false (Nat.not_le.mpr hcount)
  unfold escalationPhase trigger_level2
  simp only [hfreq, h2, hact, htrig]
  simp only [Bool.false_eq_true, false_and, if_false, Option.getD_some, ne_eq,
    Option.some_ne_none, not_false_iff, and_true, if_true, reduceCtorEq]
  rw [if_pos h10]
  split_ifs with h <;> simp_all

/-- `noTriggerBranch` never activates Level 2. -/
lemma noTriggerBranch_level2 (e : AlertEngine) (s : String) (a b c d : Bool)
    (h2 : e.level2_active = false) :
    (noTriggerBranch e s a b c d).level2_active = false := by
  unfold noTriggerBranch AlertEngine.reset
  split_ifs <;> first
    | exact h2
    | (rcases hs : e.level1_start with _ | x <;> simp [hs, h2])

/-- With state ALERT or NO_FACE and no trigger active, the no-trigger branch
is exactly `reset`. -/
lemma noTriggerBranch_alert (e : AlertEngine) (s : String) (a b c d : Bool)
    (hs : s = "ALERT" ∨ s = "NO_FACE") (hb : b = false) (hc : c = false)
    (hd : d = false) :
    noTriggerBranch e s a b c d = AlertEngine.reset e := by
  unfold noTriggerBranch
  rw [if_pos hs, if_pos ⟨hb, hc, hd⟩]

/-- `dwellPhase` preserves distinctness of `yawn_timestamps`. -/
lemma dwellPhase_yawns_nodup (e : AlertEngine) (t : ℚ) (a b c d : Bool)
    (h : e.yawn_timestamps.Nodup) : (dwellPhase e t a b c d).yawn_timestamps.Nodup := by
  unfold dwellPhase
  rcases hs : e.level1_start with _ | x <;> dsimp only <;> split_ifs <;>
    first
      | exact h
      | exact trigger_level1_yawns_nodup _ _ _ h

/-- `escalationPhase` never touches `yawn_timestamps`. -/
lemma escalationPhase_yawns (e : AlertEngine) (t : ℚ) (a b c d : Bool)
    (p r : Option ℚ) :
    (escalationPhase e t a b c d p r).yawn_timestamps = e.yawn_timestamps := by
  unfold escalationPhase
  dsimp only
  split_ifs <;> simp [trigger_level2_yawns]

/-- `noTriggerBranch` preserves distinctness of `yawn_timestamps`. -/
lemma noTriggerBranch_yawns_nodup (e : AlertEngine) (s : String) (a b c d : Bool)
    (h : e.yawn_timestamps.Nodup) :
    (noTriggerBranch e s a b c d).yawn_timestamps.Nodup := by
  unfold noTriggerBranch
  split_ifs <;>
    first
      | exact h
      | exact reset_yawns_nodup _ h

/-- A full `process` call preserves distinctness of `yawn_timestamps`. -/
lemma process_yawns_nodup (e : AlertEngine) (st : String) (t : ℚ)
    (ya : Option (List ℚ)) (p b : Option ℚ) (c : ℕ) (r : Option ℚ)
    (h : e.yawn_timestamps.Nodup) :
    (process e st t ya p b c r).yawn_timestamps.Nodup := by
  have hp : (((ingestYawns e ya).yawn_timestamps.filter
      fun ts => decide (t - YAWN_ALERT_WINDOW_SECONDS ≤ ts))).Nodup :=
    (ingestYawns_nodup e ya h).filter _
  unfold process
  dsimp only
  split_ifs with h1 h2 h3
  · exact trigger_level1_yawns_nodup _ _ _ hp
  · exact reset_yawns_nodup _ (dwellPhase_yawns_nodup _ _ _ _ _ _ hp)
  · rw [escalationPhase_yawns]
    exact dwellPhase_yawns_nodup _ _ _ _ _ _ hp
  · exact noTriggerBranch_yawns_nodup _ _ _ _ _ _ hp

/-- The first drowsy-only frame at t=0 only starts the dwell timer. -/
lemma drowsyStep_init_zero :
    drowsyStep AlertEngine.init 0 =
      { level1_start := some 0, level1_triggered_at := none, level2_triggered := false,
        level1_active := false, level2_active := false, yawn_timestamps := [],
        yawns_since_level1 := 0, level1_trigger_history := [],
        last_alert_reason := none } := by
  norm_num [process, ingestYawns, ingestYawnOne, check_yawn_trigger,
    check_blink_rate_trigger, check_microsleep_trigger, check_perclos_trigger,
    check_frequent_level1_trigger, dwellPhase, resetCheck, escalationPhase,
    noTriggerBranch, trigger_level1, trigger_level2, AlertEngine.reset,
    AlertEngine.init, DROWSY_STATES, drowsyStep,
    LEVEL1_DURATION_SECONDS, LEVEL2_DURATION_SECONDS, YAWN_ALERT_WINDOW_SECONDS,
    YAWN_ALERT_THRESHOLD, BLINK_RATE_LEVEL1_THRESHOLD, MICROSLEEP_LEVEL1_TRIGGER,
    PERCLOS_LEVEL1_MIN, PERCLOS_LEVEL1_MAX, LEVEL1_FREQUENCY_WINDOW_SECONDS,
    LEVEL1_FREQUENCY_THRESHOLD, EAR_CLOSED_THRESHOLD]

/-- While the dwell timer started at 0 has accumulated less than
`LEVEL1_DURATION_SECONDS`, a drowsy-only frame changes nothing. -/
lemma drowsyStable0 (u : ℚ) (h3 : u < 3) :
    drowsyStep
      { level1_start := some 0, level1_triggered_at := none, level2_triggered := false,
        level1_active := false, level2_active := false, yawn_timestamps := [],
        yawns_since_level1 := 0, level1_trigger_history := [],
        last_alert_reason := none } u =
      { level1_start := some 0, level1_triggered_at := none, level2_triggered := false,
        level1_active := false, level2_active := false, yawn_timestamps := [],
        yawns_since_level1 := 0, level1_trigger_history := [],
        last_alert_reason := none } := by
  have hnot : ¬ (3 : ℚ) ≤ u := not_le.mpr h3
  norm_num [process, ingestYawns, ingestYawnOne, check_yawn_trigger,
    check_blink_rate_trigger, check_microsleep_trigger, check_perclos_trigger,
    check_frequent_level1_trigger, dwellPhase, resetCheck, escalationPhase,
    noTriggerBranch, trigger_level1, trigger_level2, AlertEngine.reset,
    AlertEngine.init, DROWSY_STATES, drowsyStep,
    LEVEL1_DURATION_SECONDS, LEVEL2_DURATION_SECONDS, YAWN_ALERT_WINDOW_SECONDS,
    YAWN_ALERT_THRESHOLD, BLINK_RATE_LEVEL1_THRESHOLD, MICROSLEEP_LEVEL1_TRIGGER,
    PERCLOS_LEVEL1_MIN, PERCLOS_LEVEL1_MAX, LEVEL1_FREQUENCY_WINDOW_SECONDS,
    LEVEL1_FREQUENCY_THRESHOLD, EAR_CLOSED_THRESHOLD, hnot]

/-- The first drowsy-only frame at a time `t1 ≥ 3` (dwell timer started at
0) fires Level 1 with reason "drowsiness symptoms". -/
lemma drowsyFire (t1 : ℚ) (h3 : (3 : ℚ) ≤ t1) :
    drowsyStep
      { level1_start := some 0, level1_triggered_at := none, level2_triggered := false,
        level1_active := false, level2_active := false, yawn_timestamps := [],
        yawns_since_level1 := 0, level1_trigger_history := [],
        last_alert_reason := none } t1 =
      { level1_start := some 0, level1_triggered_at := some t1, level2_triggered := false,
        level1_active := true, level2_active := false, yawn_timestamps := [],
        yawns_since_level1 := 0, level1_trigger_history := [t1],
        last_alert_reason := some "drowsiness symptoms" } := by
  have hk : t1 ≤ t1 + (300 : ℚ) := by linarith
  norm_num [process, ingestYawns, ingestYawnOne, check_yawn_trigger,
    check_blink_rate_trigger, check_microsleep_trigger, check_perclos_trigger,
    check_frequent_level1_trigger, dwellPhase, resetCheck, escalationPhase,
    noTriggerBranch, trigger_level1, trigger_level2, AlertEngine.reset,
    AlertEngine.init, DROWSY_STATES, drowsyStep,
    LEVEL1_DURATION_SECONDS, LEVEL2_DURATION_SECONDS, YAWN_ALERT_WINDOW_SECONDS,
    YAWN_ALERT_THRESHOLD, BLINK_RATE_LEVEL1_THRESHOLD, MICROSLEEP_LEVEL1_TRIGGER,
    PERCLOS_LEVEL1_MIN, PERCLOS_LEVEL1_MAX, LEVEL1_FREQUENCY_WINDOW_SECONDS,
    LEVEL1_FREQUENCY_THRESHOLD, EAR_CLOSED_THRESHOLD, h3, hk]
  all_goals decide

/-- While Level 1 (triggered at `t1`) has been active for less than
`LEVEL2_DURATION_SECONDS`, a drowsy-only frame changes nothing. -/
lemma drowsyStable1 (t1 v : ℚ) (hlt : v < t1 + 10) :
    drowsyStep
      { level1_start := some 0, level1_triggered_at := some t1, level2_triggered := false,
        level1_active := true, level2_active := false, yawn_timestamps := [],
        yawns_since_level1 := 0, level1_trigger_history := [t1],
        last_alert_reason := some "drowsiness symptoms" } v =
      { level1_start := some 0, level1_triggered_at := some t1, level2_triggered := false,
        level1_active := true, level2_active := false, yawn_timestamps := [],
        yawns_since_level1 := 0, level1_trigger_history := [t1],
        last_alert_reason := some "drowsiness symptoms" } := by
  have hk : v ≤ t1 + (300 : ℚ) := by linarith
  have hnot : ¬ (10 : ℚ) ≤ v - t1 := by intro hc; linarith
  have hnot3 : ¬ (10 : ℚ) + t1 ≤ v := by intro hc; linarith
  have hnot4 : ¬ t1 + (10 : ℚ) ≤ v := by intro hc; linarith
  norm_num [process, ingestYawns, ingestYawnOne, check_yawn_trigger,
    check_blink_rate_trigger, check_microsleep_trigger, check_perclos_trigger,
    check_frequent_level1_trigger, dwellPhase, resetCheck, escalationPhase,
    noTriggerBranch, trigger_level1, trigger_level2, AlertEngine.reset,
    AlertEngine.init, DROWSY_STATES, drowsyStep,
    LEVEL1_DURATION_SECONDS, LEVEL2_DURATION_SECONDS, YAWN_ALERT_WINDOW_SECONDS,
    YAWN_ALERT_THRESHOLD, BLINK_RATE_LEVEL1_THRESHOLD, MICROSLEEP_LEVEL1_TRIGGER,
    PERCLOS_LEVEL1_MIN, PERCLOS_LEVEL1_MAX, LEVEL1_FREQUENCY_WINDOW_SECONDS,
    LEVEL1_FREQUENCY_THRESHOLD, EAR_CLOSED_THRESHOLD, hk, hnot, hnot3, hnot4]

/-- Once Level 1 (triggered at `t1`) has been active for at least
`LEVEL2_DURATION_SECONDS` with the drowsy state persisting, the next
drowsy-only frame escalates to Level 2. -/
lemma drowsyEscalate (t1 t2 : ℚ) (h10 : t1 + 10 ≤ t2) :
    get_alert_level (drowsyStep
      { level1_start := some 0, level1_triggered_at := some t1, level2_triggered := false,
        level1_active := true, level2_active := false, yawn_timestamps := [],
        yawns_since_level1 := 0, level1_trigger_history := [t1],
        last_alert_reason := some "drowsiness symptoms" } t2) = 2 := by
  have h10b : (10 : ℚ) ≤ t2 - t1 := by linarith
  have h10c : (10 : ℚ) + t1 ≤ t2 := by linarith
  by_cases hk : t2 ≤ t1 + (300 : ℚ) <;>
  norm_num [process, ingestYawns, ingestYawnOne, check_yawn_trigger,
    check_blink_rate_trigger, check_microsleep_trigger, check_perclos_trigger,
    check_frequent_level1_trigger, dwellPhase, resetCheck, escalationPhase,
    noTriggerBranch, trigger_level1, trigger_level2, AlertEngine.reset,
    AlertEngine.init, DROWSY_STATES, drowsyStep, get_alert_level,
    LEVEL1_DURATION_SECONDS, LEVEL2_DURATION_SECONDS, YAWN_ALERT_WINDOW_SECONDS,
    YAWN_ALERT_THRESHOLD, BLINK_RATE_LEVEL1_THRESHOLD, MICROSLEEP_LEVEL1_TRIGGER,
    PERCLOS_LEVEL1_MIN, PERCLOS_LEVEL1_MAX, LEVEL1_FREQUENCY_WINDOW_SECONDS,
    LEVEL1_FREQUENCY_THRESHOLD, EAR_CLOSED_THRESHOLD, hk, h10b, h10c, h10] <;>
  simp

end Helpers

/-- Claim C9: `AlertEngine.reset` is idempotent — for every engine state
(hence in particular for every reachable one), calling `reset` twice in
immediate succession leaves the engine exactly as calling it once.  After the
first call `level1_start` is `None`, so the second call's guard fails and it
changes nothing. -/
theorem C9_reset_idempotent :
    ∀ e : AlertEngine, AlertEngine.reset (AlertEngine.reset e) = AlertEngine.reset e := by
  intro e
  rcases h : e.level1_start with _ | x <;> simp [AlertEngine.reset, h]

/-- Claim C10: whenever `level1_start` is `None`, `reset()` leaves every
field of the engine unchanged (its whole body is guarded on `level1_start`).
Consequently, after a Level 1 activated solely by the microsleep early-return
path — which calls `trigger_level1` before `level1_start` is ever assigned —
`level1_active` stays true, `level1_start` is still `None`, and neither
`reset()` nor the state-clearing part of `manual_reset()` (nor a later
trigger-free `process` call, whose reset attempt is the same no-op)
deactivates Level 1. -/
theorem C10_reset_noop_guard :
    (∀ e : AlertEngine, e.level1_start = none → AlertEngine.reset e = e) ∧
    microsleepL1.level1_active = true ∧
    microsleepL1.level1_start = none ∧
    AlertEngine.reset microsleepL1 = microsleepL1 ∧
    (manual_reset microsleepL1).level1_active = true ∧
    (process microsleepL1 "ALERT" 1 none none none 0 none).level1_active = true := by
  refine ⟨?_, by decide, by decide, by decide, by decide, by decide⟩
  intro e h
  unfold AlertEngine.reset
  rw [h]

/-- Witness for C10 at a concrete engine: the guarded `reset` is a no-op on
an engine whose `level1_start` is `None` even though Level 1 is active. -/
theorem C10_reset_noop_guard_witness :
    AlertEngine.reset ⟨none, some 0, false, true, false, [], 0, [0], none⟩ =
      ⟨none, some 0, false, true, false, [], 0, [0], none⟩ :=
  C10_reset_noop_guard.1 ⟨none, some 0, false, true, false, [], 0, [0], none⟩ rfl

/-- Counterexample to claim C6: `reset()` does not always clear the
symptom-tracking fields.  `microsleepL1` is reached from the fresh engine by
one `process` call (`state="ALERT"`, `t=0`, `microsleep_count=1`); its
`level1_start` is `None`, so `reset()` is a no-op and `level1_active` stays
true instead of being cleared. -/
theorem C6_counterexample :
    microsleepL1.level1_active = true ∧
    microsleepL1.level1_start = none ∧
    (AlertEngine.reset microsleepL1).level1_active = true := by
  decide

/-- Claim C6 as amended: neither `reset()` nor `manual_reset()` ever changes
`level1_trigger_history`, and `manual_reset()` additionally always clears
`level2_triggered`; `reset()` clears `level1_start`, `level1_triggered_at`,
`level1_active`, `level2_active`, `yawn_timestamps` and `yawns_since_level1`
whenever `level1_start` is set (and is a no-op otherwise). -/
theorem C6_amended_reset_effects :
    (∀ e : AlertEngine,
        (AlertEngine.reset e).level1_trigger_history = e.level1_trigger_history ∧
        (manual_reset e).level1_trigger_history = e.level1_trigger_history ∧
        (manual_reset e).level2_triggered = false) ∧
    (∀ (e : AlertEngine) (x : ℚ), e.level1_start = some x →
        AlertEngine.reset e =
          { e with level1_start := none, level1_triggered_at := none,
                   level1_active := false, level2_active := false,
                   yawn_timestamps := [], yawns_since_level1 := 0 }) := by
  constructor
  · intro e
    rcases h : e.level1_start with _ | x <;>
      simp [AlertEngine.reset, manual_reset, h]
  · intro e x h
    unfold AlertEngine.reset
    rw [h]

/-- Witness for the amended C6 at a concrete engine with `level1_start` set:
`reset` clears the symptom fields and keeps the trigger history. -/
theorem C6_amended_reset_effects_witness :
    AlertEngine.reset ⟨some 1, some 3, true, true, true, [2], 4, [3], none⟩ =
      ⟨none, none, true, false, false, [], 0, [3], none⟩ :=
  C6_amended_reset_effects.2 ⟨some 1, some 3, true, true, true, [2], 4, [3], none⟩ 1 rfl

/-- Claim C7: both sliding-window queries (`_check_yawn_trigger` over
`yawn_timestamps` and `_check_frequent_level1_trigger` over
`level1_trigger_history`) first discard every entry older than
`now − window_size`, keep an entry lying exactly on the boundary, and compute
their answer only from the entries inside the trailing window. -/
theorem C7_sliding_window_prune :
    ∀ (l : List ℚ) (now : ℚ),
      ((check_yawn_trigger l now).1 =
          l.filter fun ts => decide (now - YAWN_ALERT_WINDOW_SECONDS ≤ ts)) ∧
      (∀ ts ∈ (check_yawn_trigger l now).1, now - YAWN_ALERT_WINDOW_SECONDS ≤ ts) ∧
      ((now - YAWN_ALERT_WINDOW_SECONDS) ∈ (check_yawn_trigger l now).1 ↔
          (now - YAWN_ALERT_WINDOW_SECONDS) ∈ l) ∧
      ((check_yawn_trigger l now).2 =
          decide (YAWN_ALERT_THRESHOLD <
            (l.filter fun ts => decide (now - YAWN_ALERT_WINDOW_SECONDS ≤ ts)).length)) ∧
      ((check_frequent_level1_trigger l now).1 =
          l.filter fun ts => decide (now - LEVEL1_FREQUENCY_WINDOW_SECONDS ≤ ts)) ∧
      (∀ ts ∈ (check_frequent_level1_trigger l now).1,
          now - LEVEL1_FREQUENCY_WINDOW_SECONDS ≤ ts) ∧
      ((now - LEVEL1_FREQUENCY_WINDOW_SECONDS) ∈ (check_frequent_level1_trigger l now).1 ↔
          (now - LEVEL1_FREQUENCY_WINDOW_SECONDS) ∈ l) ∧
      ((check_frequent_level1_trigger l now).2 =
          decide (LEVEL1_FREQUENCY_THRESHOLD ≤
            (l.filter fun ts =>
              decide (now - LEVEL1_FREQUENCY_WINDOW_SECONDS ≤ ts)).length)) := by
  intro l now
  have hcount : ∀ (p : ℚ → Bool), (l.filter p).countP p = (l.filter p).length := by
    intro p
    refine List.countP_eq_length.2 ?_
    intro a ha
    exact List.of_mem_filter ha
  refine ⟨rfl, ?_, ?_, ?_, rfl, ?_, ?_, ?_⟩
  · intro ts hts
    have := List.of_mem_filter hts
    simpa using this
  · simp [check_yawn_trigger]
  · simp only [check_yawn_trigger]
    rw [hcount]
  · intro ts hts
    have := List.of_mem_filter hts
    simpa using this
  · simp [check_frequent_level1_trigger]
  · simp only [check_frequent_level1_trigger]
    rw [hcount]

/-- Witness for C7 at a concrete window query: the boundary entry 10 of the
trailing 30 s window ending at 40 is kept, and every kept entry is inside
the window. -/
theorem C7_sliding_window_prune_witness :
    (40 : ℚ) - YAWN_ALERT_WINDOW_SECONDS ≤ 10 :=
  (C7_sliding_window_prune [10, 50] 40).2.1 10
    (by norm_num [check_yawn_trigger, YAWN_ALERT_WINDOW_SECONDS])

/-- Claim C3: a `process` call with `microsleep_count ≥ 1` while Level 1 is
inactive activates Level 1 on that same call with reason "microsleep event"
and no dwell delay (`level1_start` is untouched, so no
`LEVEL1_DURATION_SECONDS` accumulation is required), for any `state`
argument including ALERT; the resulting alert level is 1 unless Level 2 was
already active. -/
theorem C3_microsleep_bypass (e : AlertEngine) (state : String) (t : ℚ)
    (ya : Option (List ℚ)) (perclos blink_rate : Option ℚ) (c : ℕ) (ear : Option ℚ)
    (hc : 1 ≤ c) (h1 : e.level1_active = false) :
    (process e state t ya perclos blink_rate c ear).level1_active = true ∧
    (process e state t ya perclos blink_rate c ear).last_alert_reason =
      some "microsleep event" ∧
    (process e state t ya perclos blink_rate c ear).level1_triggered_at = some t ∧
    (process e state t ya perclos blink_rate c ear).level1_start = e.level1_start ∧
    (process e state t ya perclos blink_rate c ear).level2_active = e.level2_active ∧
    get_alert_level (process e state t ya perclos blink_rate c ear) =
      if e.level2_active then 2 else 1 := by
  obtain ⟨f1, f2, f3, f4, f5, f6, f7⟩ := ingestYawns_frame e ya
  have hms : check_microsleep_trigger c = true := by
    unfold check_microsleep_trigger MICROSLEEP_LEVEL1_TRIGGER
    simp only [Bool.true_and, decide_eq_true_eq]
    omega
  unfold process
  dsimp only
  rw [if_pos ⟨hms, f4.trans h1⟩]
  unfold trigger_level1
  rw [if_neg (by simp [f4, h1])]
  rw [if_neg (by decide : ¬ ("microsleep event" = "yawn frequency"))]
  refine ⟨rfl, rfl, rfl, by simpa using f1, by simpa using f5, ?_⟩
  cases hl2 : e.level2_active <;> simp [get_alert_level, f5, hl2]

/-- Witness for C3 at the fresh engine with a microsleep at t = 7 (Scenario
B): the call returns alert level 1 with the microsleep reason. -/
theorem C3_microsleep_bypass_witness :
    (process AlertEngine.init "ALERT" 7 none none none 1 none).level1_active = true ∧
    get_alert_level (process AlertEngine.init "ALERT" 7 none none none 1 none) = 1 := by
  constructor
  · exact (C3_microsleep_bypass AlertEngine.init "ALERT" 7 none none none 1 none
      (le_refl 1) rfl).1
  · have h := (C3_microsleep_bypass AlertEngine.init "ALERT" 7 none none none 1 none
      (le_refl 1) rfl).2.2.2.2.2
    simpa using h

/-- Claim C1 is violated by the code (Scenario D): driving the engine with
state=DROWSY at t=0,1,2,3 fires Level 1 at t=3 (`level1_triggered_at = 3`),
and the claim says every call with 3 < t < 8 keeps level 1, the reset coming
only at t ≥ 8; but the very next call at t=4 with state=ALERT and no
triggers already returns the engine to level 0.  The 5-second quiet window
of alerter.py lines 184-197 is unreachable — it requires all four triggers
false inside a branch entered only when some trigger is true — so the
exercised reset is the immediate one of lines 238-243. -/
theorem C1_immediate_reset_divergence :
    get_alert_level (drowsyStep (drowsyStep AlertEngine.init 0) 3) = 1 ∧
    (drowsyStep (drowsyStep AlertEngine.init 0) 3).level1_triggered_at = some 3 ∧
    ((3 : ℚ) < 4 ∧ (4 : ℚ) < 3 + 5) ∧
    get_alert_level
      (process (drowsyStep (drowsyStep AlertEngine.init 0) 3)
        "ALERT" 4 none none none 0 none) = 0 := by
  have h0 : drowsyStep AlertEngine.init 0 =
      { level1_start := some 0, level1_triggered_at := none, level2_triggered := false,
        level1_active := false, level2_active := false, yawn_timestamps := [],
        yawns_since_level1 := 0, level1_trigger_history := [],
        last_alert_reason := none } := by
    norm_num [process, ingestYawns, ingestYawnOne, check_yawn_trigger,
      check_blink_rate_trigger, check_microsleep_trigger, check_perclos_trigger,
      check_frequent_level1_trigger, dwellPhase, resetCheck, escalationPhase,
      noTriggerBranch, trigger_level1, trigger_level2, AlertEngine.reset,
      AlertEngine.init, DROWSY_STATES, drowsyStep,
      LEVEL1_DURATION_SECONDS, LEVEL2_DURATION_SECONDS, YAWN_ALERT_WINDOW_SECONDS,
      YAWN_ALERT_THRESHOLD, BLINK_RATE_LEVEL1_THRESHOLD, MICROSLEEP_LEVEL1_TRIGGER,
      PERCLOS_LEVEL1_MIN, PERCLOS_LEVEL1_MAX, LEVEL1_FREQUENCY_WINDOW_SECONDS,
      LEVEL1_FREQUENCY_THRESHOLD, EAR_CLOSED_THRESHOLD]
  have h1 : drowsyStep
      { level1_start := some 0, level1_triggered_at := none, level2_triggered := false,
        level1_active := false, level2_active := false, yawn_timestamps := [],
        yawns_since_level1 := 0, level1_trigger_history := [],
        last_alert_reason := none } 3 =
      { level1_start := some 0, level1_triggered_at := some 3, level2_triggered := false,
        level1_active := true, level2_active := false, yawn_timestamps := [],
        yawns_since_level1 := 0, level1_trigger_history := [3],
        last_alert_reason := some "drowsiness symptoms" } := by
    norm_num [process, ingestYawns, ingestYawnOne, check_yawn_trigger,
      check_blink_rate_trigger, check_microsleep_trigger, check_perclos_trigger,
      check_frequent_level1_trigger, dwellPhase, resetCheck, escalationPhase,
      noTriggerBranch, trigger_level1, trigger_level2, AlertEngine.reset,
      AlertEngine.init, DROWSY_STATES, drowsyStep,
      LEVEL1_DURATION_SECONDS, LEVEL2_DURATION_SECONDS, YAWN_ALERT_WINDOW_SECONDS,
      YAWN_ALERT_THRESHOLD, BLINK_RATE_LEVEL1_THRESHOLD, MICROSLEEP_LEVEL1_TRIGGER,
      PERCLOS_LEVEL1_MIN, PERCLOS_LEVEL1_MAX, LEVEL1_FREQUENCY_WINDOW_SECONDS,
      LEVEL1_FREQUENCY_THRESHOLD, EAR_CLOSED_THRESHOLD]
    all_goals decide
  have h2 : process
      { level1_start := some 0, level1_triggered_at := some 3, level2_triggered := false,
        level1_active := true, level2_active := false, yawn_timestamps := [],
        yawns_since_level1 := 0, level1_trigger_history := [3],
        last_alert_reason := some "drowsiness symptoms" } "ALERT" 4 none none none 0 none =
      { level1_start := none, level1_triggered_at := none, level2_triggered := false,
        level1_active := false, level2_active := false, yawn_timestamps := [],
        yawns_since_level1 := 0, level1_trigger_history := [3],
        last_alert_reason := some "drowsiness symptoms" } := by
    norm_num [process, ingestYawns, ingestYawnOne, check_yawn_trigger,
      check_blink_rate_trigger, check_microsleep_trigger, check_perclos_trigger,
      check_frequent_level1_trigger, dwellPhase, resetCheck, escalationPhase,
      noTriggerBranch, trigger_level1, trigger_level2, AlertEngine.reset,
      AlertEngine.init, DROWSY_STATES, drowsyStep,
      LEVEL1_DURATION_SECONDS, LEVEL2_DURATION_SECONDS, YAWN_ALERT_WINDOW_SECONDS,
      YAWN_ALERT_THRESHOLD, BLINK_RATE_LEVEL1_THRESHOLD, MICROSLEEP_LEVEL1_TRIGGER,
      PERCLOS_LEVEL1_MIN, PERCLOS_LEVEL1_MAX, LEVEL1_FREQUENCY_WINDOW_SECONDS,
      LEVEL1_FREQUENCY_THRESHOLD, EAR_CLOSED_THRESHOLD]
    all_goals decide
  refine ⟨?_, ?_, ⟨by norm_num, by norm_num⟩, ?_⟩
  · rw [h0, h1]
    rfl
  · rw [h0, h1]
  · rw [h0, h1, h2]
    rfl

/-- Counterexample to claim C2: an engine whose `level1_trigger_history`
holds three entries inside the trailing 300 s window (reachable via three
Level-1 episodes as in Scenario E, since `reset` keeps the history) and
whose Level 2 is inactive does NOT escalate on a `process` call at t=250
with state=ALERT and no active trigger: the frequent-recurrence check of
alerter.py line 202 sits inside the `should_trigger_level1` branch and is
never reached when the engine currently reads IDLE with no trigger. -/
theorem C2_counterexample :
    (({ AlertEngine.init with level1_trigger_history := [0, 100, 200] } :
        AlertEngine).level1_trigger_history.filter fun ts =>
          decide ((250 : ℚ) - LEVEL1_FREQUENCY_WINDOW_SECONDS ≤ ts)).length = 3 ∧
    ({ AlertEngine.init with level1_trigger_history := [0, 100, 200] } :
        AlertEngine).level2_active = false ∧
    (process { AlertEngine.init with level1_trigger_history := [0, 100, 200] }
        "ALERT" 250 none none none 0 none).level2_active = false ∧
    get_alert_level
      (process { AlertEngine.init with level1_trigger_history := [0, 100, 200] }
        "ALERT" 250 none none none 0 none) = 0 := by
  norm_num [process, ingestYawns, ingestYawnOne, check_yawn_trigger,
    check_blink_rate_trigger, check_microsleep_trigger, check_perclos_trigger,
    check_frequent_level1_trigger, dwellPhase, resetCheck, escalationPhase,
    noTriggerBranch, trigger_level1, trigger_level2, AlertEngine.reset,
    get_alert_level, AlertEngine.init, DROWSY_STATES, drowsyStep,
    LEVEL1_DURATION_SECONDS, LEVEL2_DURATION_SECONDS, YAWN_ALERT_WINDOW_SECONDS,
    YAWN_ALERT_THRESHOLD, BLINK_RATE_LEVEL1_THRESHOLD, MICROSLEEP_LEVEL1_TRIGGER,
    PERCLOS_LEVEL1_MIN, PERCLOS_LEVEL1_MAX, LEVEL1_FREQUENCY_WINDOW_SECONDS,
    LEVEL1_FREQUENCY_THRESHOLD, EAR_CLOSED_THRESHOLD]
  decide

/-- Claim C2 as amended: the frequent-recurrence escalation fires on a
`process` call at time t whenever `level1_trigger_history` holds at least
`LEVEL1_FREQUENCY_THRESHOLD` entries in the trailing
`LEVEL1_FREQUENCY_WINDOW_SECONDS` window, Level 2 is not yet active, no
microsleep cuts the call short, and at least one Level-1 trigger (drowsy
state, yawn, blink-rate, PERCLOS) is active on that frame — regardless of
whether Level 1 itself is currently active.  (Without an active trigger the
escalation code is never reached; see the counterexample.) -/
theorem C2_amended_frequent_escalation (e : AlertEngine) (state : String) (t : ℚ)
    (perclos blink_rate : Option ℚ) (ear : Option ℚ)
    (hcount : LEVEL1_FREQUENCY_THRESHOLD ≤
      (e.level1_trigger_history.filter fun ts =>
        decide (t - LEVEL1_FREQUENCY_WINDOW_SECONDS ≤ ts)).length)
    (h2 : e.level2_active = false)
    (hshould : (DROWSY_STATES.contains state ||
        (check_yawn_trigger e.yawn_timestamps t).2 ||
        check_blink_rate_trigger blink_rate ||
        check_perclos_trigger perclos) = true) :
    (process e state t none perclos blink_rate 0 ear).level2_active = true ∧
    (process e state t none perclos blink_rate 0 ear).last_alert_reason =
      some "frequent Level 1 alerts" := by
  unfold process
  dsimp only [ingestYawns]
  rw [if_neg (fun h => absurd h.1 (by decide))]
  rw [if_pos hshould]
  have hrc : resetCheck
      (dwellPhase { e with
        yawn_timestamps := (check_yawn_trigger e.yawn_timestamps t).1 } t
        (DROWSY_STATES.contains state) (check_yawn_trigger e.yawn_timestamps t).2
        (check_blink_rate_trigger blink_rate) (check_perclos_trigger perclos)) t
      (DROWSY_STATES.contains state) (check_yawn_trigger e.yawn_timestamps t).2
      (check_blink_rate_trigger blink_rate) (check_perclos_trigger perclos) = false := by
    unfold resetCheck
    rcases hx : DROWSY_STATES.contains state with _ | _ <;>
    rcases hy : (check_yawn_trigger e.yawn_timestamps t).2 with _ | _ <;>
    rcases hz : check_blink_rate_trigger blink_rate with _ | _ <;>
    rcases hw : check_perclos_trigger perclos with _ | _ <;>
      simp_all
  rw [if_neg (by rw [hrc]; exact Bool.false_ne_true)]
  have hl2 : (dwellPhase { e with
      yawn_timestamps := (check_yawn_trigger e.yawn_timestamps t).1 } t
      (DROWSY_STATES.contains state) (check_yawn_trigger e.yawn_timestamps t).2
      (check_blink_rate_trigger blink_rate)
      (check_perclos_trigger perclos)).level2_active = false :=
    (dwellPhase_level2_active _ _ _ _ _ _).trans h2
  obtain ⟨l, hl⟩ := dwellPhase_history { e with
      yawn_timestamps := (check_yawn_trigger e.yawn_timestamps t).1 } t
      (DROWSY_STATES.contains state) (check_yawn_trigger e.yawn_timestamps t).2
      (check_blink_rate_trigger blink_rate) (check_perclos_trigger perclos)
  refine escalationPhase_frequent _ t _ _ _ _ perclos ear ?_ hl2
  rw [hl]
  simp only [List.filter_append, List.length_append]
  exact le_trans hcount (Nat.le_add_right _ _)

/-- Claim C4 (Scenario C): with `process` called on drowsy-only frames from
t=0 (state=DROWSY, no other metrics), the alert level is 0 on the first call
and on every further call before t=3; Level 1 fires on the first call at a
time `t1 ≥ 3` (after `LEVEL1_DURATION_SECONDS` of continuous trigger
activity) with `level1_triggered_at = t1`; the level stays 1 on every call
before `t1 + LEVEL2_DURATION_SECONDS`; and Level 2 fires on the first call
at a time `t2 ≥ t1 + 10` (t2 = 13 when t1 = 3), the state-trigger still
being active. -/
theorem C4_drowsy_escalation_timeline (us vs : List ℚ) (t1 t2 : ℚ)
    (hus : ∀ u ∈ us, 0 ≤ u ∧ u < 3) (ht1 : 3 ≤ t1)
    (hvs : ∀ v ∈ vs, t1 ≤ v ∧ v < t1 + 10) (ht2 : t1 + 10 ≤ t2) :
    get_alert_level (drowsyStep AlertEngine.init 0) = 0 ∧
    (∀ u ∈ us, drowsyStep (drowsyStep AlertEngine.init 0) u =
        drowsyStep AlertEngine.init 0) ∧
    get_alert_level
      (drowsyStep (us.foldl drowsyStep (drowsyStep AlertEngine.init 0)) t1) = 1 ∧
    (drowsyStep (us.foldl drowsyStep (drowsyStep AlertEngine.init 0))
        t1).level1_triggered_at = some t1 ∧
    (∀ v ∈ vs,
      drowsyStep
        (drowsyStep (us.foldl drowsyStep (drowsyStep AlertEngine.init 0)) t1) v =
        drowsyStep (us.foldl drowsyStep (drowsyStep AlertEngine.init 0)) t1) ∧
    get_alert_level
      (drowsyStep
        (vs.foldl drowsyStep
          (drowsyStep (us.foldl drowsyStep (drowsyStep AlertEngine.init 0)) t1))
        t2) = 2 := by
  refine ⟨?_, ?_, ?_, ?_, ?_, ?_⟩
  · rw [drowsyStep_init_zero]
    rfl
  · intro u hu
    rw [drowsyStep_init_zero]
    exact drowsyStable0 u (hus u hu).2
  · rw [drowsyStep_init_zero,
      foldl_fixed drowsyStep _ us (fun u hu => drowsyStable0 u (hus u hu).2),
      drowsyFire t1 ht1]
    rfl
  · rw [drowsyStep_init_zero,
      foldl_fixed drowsyStep _ us (fun u hu => drowsyStable0 u (hus u hu).2),
      drowsyFire t1 ht1]
  · intro v hv
    rw [drowsyStep_init_zero,
      foldl_fixed drowsyStep _ us (fun u hu => drowsyStable0 u (hus u hu).2),
      drowsyFire t1 ht1]
    exact drowsyStable1 t1 v (hvs v hv).2
  · rw [drowsyStep_init_zero,
      foldl_fixed drowsyStep _ us (fun u hu => drowsyStable0 u (hus u hu).2),
      drowsyFire t1 ht1,
      foldl_fixed drowsyStep _ vs (fun v hv => drowsyStable1 t1 v (hvs v hv).2)]
    exact drowsyEscalate t1 t2 ht2

/-- Witness for C4 at the concrete Scenario-C timeline: drowsy frames at
t = 0, 1, 2 keep level 0, Level 1 fires at t=3, frames at t = 5, 12 keep
level 1, and the frame at t=13 escalates to Level 2. -/
theorem C4_drowsy_escalation_timeline_witness :
    get_alert_level
      (drowsyStep
        ([5, 12].foldl drowsyStep
          (drowsyStep ([1, 2].foldl drowsyStep (drowsyStep AlertEngine.init 0)) 3))
        13) = 2 :=
  (C4_drowsy_escalation_timeline [1, 2] [5, 12] 3 13
    (by norm_num) (by norm_num) (by norm_num) (by norm_num)).2.2.2.2.2

/-- Counterexample to claim C5: an engine in which Level 1 has been active
for `LEVEL2_DURATION_SECONDS` (triggered at 0, now t=100), Level 2 is
inactive, the state-trigger is false (state=ALERT), the yawn-trigger is
active (3 yawns in the trailing 30 s) but `yawns_since_level1 = 0` and no
perclos/ear metric is supplied — so the claim's escalation chain yields "no
escalation" — yet `process` escalates to Level 2 anyway, through the
independent frequent-recurrence path (history [0,50,90] has 3 entries in the
300 s window). -/
theorem C5_counterexample :
    (check_yawn_trigger ([95, 96, 97] : List ℚ) 100).2 = true ∧
    (process
      { level1_start := some 0, level1_triggered_at := some 0,
        level2_triggered := false, level1_active := true, level2_active := false,
        yawn_timestamps := [95, 96, 97], yawns_since_level1 := 0,
        level1_trigger_history := [0, 50, 90], last_alert_reason := none }
      "ALERT" 100 none none none 0 none).level2_active = true ∧
    (process
      { level1_start := some 0, level1_triggered_at := some 0,
        level2_triggered := false, level1_active := true, level2_active := false,
        yawn_timestamps := [95, 96, 97], yawns_since_level1 := 0,
        level1_trigger_history := [0, 50, 90], last_alert_reason := none }
      "ALERT" 100 none none none 0 none).last_alert_reason =
      some "frequent Level 1 alerts" := by
  refine ⟨by norm_num [check_yawn_trigger, YAWN_ALERT_WINDOW_SECONDS,
    YAWN_ALERT_THRESHOLD], ?_, ?_⟩ <;>
  · norm_num [process, ingestYawns, ingestYawnOne, check_yawn_trigger,
      check_blink_rate_trigger, check_microsleep_trigger, check_perclos_trigger,
      check_frequent_level1_trigger, dwellPhase, resetCheck, escalationPhase,
      noTriggerBranch, trigger_level1, trigger_level2, AlertEngine.reset,
      AlertEngine.init, DROWSY_STATES,
      LEVEL1_DURATION_SECONDS, LEVEL2_DURATION_SECONDS, YAWN_ALERT_WINDOW_SECONDS,
      YAWN_ALERT_THRESHOLD, BLINK_RATE_LEVEL1_THRESHOLD, MICROSLEEP_LEVEL1_TRIGGER,
      PERCLOS_LEVEL1_MIN, PERCLOS_LEVEL1_MAX, LEVEL1_FREQUENCY_WINDOW_SECONDS,
      LEVEL1_FREQUENCY_THRESHOLD, EAR_CLOSED_THRESHOLD]
    all_goals decide

/-- Claim C5 as amended: when Level 1 has been active for at least
`LEVEL2_DURATION_SECONDS`, Level 2 is not yet active, and the independent
frequent-recurrence condition does not hold (fewer than
`LEVEL1_FREQUENCY_THRESHOLD` history entries in the trailing 300 s window),
`process` escalates to Level 2 exactly when the persistent-symptom chain
holds: drowsy state unconditionally; otherwise an active yawn-trigger only
if `yawns_since_level1 > 0` and (perclos ≥ `PERCLOS_LEVEL1_MIN` or
ear < `EAR_CLOSED_THRESHOLD`); otherwise an active blink-rate- or
perclos-trigger unconditionally; and not at all when none of these holds.
(When the frequent-recurrence condition does hold, the engine can escalate
even though the chain is false; see the counterexample.) -/
theorem C5_amended_standard_escalation (e : AlertEngine) (state : String)
    (t t1 : ℚ) (perclos blink_rate : Option ℚ) (c : ℕ) (ear : Option ℚ)
    (hact : e.level1_active = true)
    (htrig : e.level1_triggered_at = some t1)
    (h10 : LEVEL2_DURATION_SECONDS ≤ t - t1)
    (h2 : e.level2_active = false)
    (hfreq : (e.level1_trigger_history.filter fun ts =>
        decide (t - LEVEL1_FREQUENCY_WINDOW_SECONDS ≤ ts)).length <
      LEVEL1_FREQUENCY_THRESHOLD) :
    (process e state t none perclos blink_rate c ear).level2_active =
      (if DROWSY_STATES.contains state then true
       else if (check_yawn_trigger e.yawn_timestamps t).2 then
         decide (0 < e.yawns_since_level1) &&
           ((match perclos with
             | none => false
             | some v => decide (PERCLOS_LEVEL1_MIN ≤ v)) ||
            (match ear with
             | none => false
             | some v => decide (v < EAR_CLOSED_THRESHOLD)))
       else if check_blink_rate_trigger blink_rate then true
       else if check_perclos_trigger perclos then true
       else false) := by
  unfold process
  dsimp only [ingestYawns]
  rw [if_neg (fun h => absurd h.2 (by simp [hact]))]
  by_cases hsh : (DROWSY_STATES.contains state ||
      (check_yawn_trigger e.yawn_timestamps t).2 ||
      check_blink_rate_trigger blink_rate ||
      check_perclos_trigger perclos) = true
  · rw [if_pos hsh]
    obtain ⟨d1, d2, d3, d4, d5, d6, d7, d8⟩ := dwellPhase_of_active
      { e with yawn_timestamps := (check_yawn_trigger e.yawn_timestamps t).1 } t
      (DROWSY_STATES.contains state) (check_yawn_trigger e.yawn_timestamps t).2
      (check_blink_rate_trigger blink_rate) (check_perclos_trigger perclos) hact
    have hrc : resetCheck
        (dwellPhase { e with
          yawn_timestamps := (check_yawn_trigger e.yawn_timestamps t).1 } t
          (DROWSY_STATES.contains state) (check_yawn_trigger e.yawn_timestamps t).2
          (check_blink_rate_trigger blink_rate) (check_perclos_trigger perclos)) t
        (DROWSY_STATES.contains state) (check_yawn_trigger e.yawn_timestamps t).2
        (check_blink_rate_trigger blink_rate) (check_perclos_trigger perclos) = false := by
      unfold resetCheck
      rcases hx : DROWSY_STATES.contains state with _ | _ <;>
      rcases hy : (check_yawn_trigger e.yawn_timestamps t).2 with _ | _ <;>
      rcases hz : check_blink_rate_trigger blink_rate with _ | _ <;>
      rcases hw : check_perclos_trigger perclos with _ | _ <;>
        simp_all
    rw [if_neg (by rw [hrc]; exact Bool.false_ne_true)]
    have hmain := escalationPhase_standard
      (dwellPhase { e with
        yawn_timestamps := (check_yawn_trigger e.yawn_timestamps t).1 } t
        (DROWSY_STATES.contains state) (check_yawn_trigger e.yawn_timestamps t).2
        (check_blink_rate_trigger blink_rate) (check_perclos_trigger perclos))
      t t1
      (DROWSY_STATES.contains state) (check_yawn_trigger e.yawn_timestamps t).2
      (check_blink_rate_trigger blink_rate) (check_perclos_trigger perclos)
      perclos ear (by rw [d5]; exact hfreq) d1 (by rw [d2]; exact htrig) h10
      (by rw [d3]; exact h2)
    rw [hmain, d6]
  · rw [if_neg hsh]
    have hno := noTriggerBranch_level2
      { e with yawn_timestamps := (check_yawn_trigger e.yawn_timestamps t).1 } state
      (DROWSY_STATES.contains state) (check_yawn_trigger e.yawn_timestamps t).2
      (check_blink_rate_trigger blink_rate) (check_perclos_trigger perclos) h2
    rw [hno]
    simp only [Bool.or_eq_true, not_or, Bool.not_eq_true] at hsh
    simp [hsh.1.1.1, hsh.1.1.2, hsh.1.2, hsh.2]
    simpa using hsh.1.1.1

/-- Witness for the amended C5: with Level 1 triggered at t=0 and the
drowsy state persisting at t=13, the standard escalation fires. -/
theorem C5_amended_standard_escalation_witness :
    (process
      { level1_start := some 0, level1_triggered_at := some 0,
        level2_triggered := false, level1_active := true, level2_active := false,
        yawn_timestamps := [], yawns_since_level1 := 0,
        level1_trigger_history := [0], last_alert_reason := none }
      "DROWSY" 13 none none none 0 none).level2_active = true :=
  (C5_amended_standard_escalation
    { level1_start := some 0, level1_triggered_at := some 0,
      level2_triggered := false, level1_active := true, level2_active := false,
      yawn_timestamps := [], yawns_since_level1 := 0,
      level1_trigger_history := [0], last_alert_reason := none }
    "DROWSY" 13 0 none none 0 none rfl rfl
    (by norm_num [LEVEL2_DURATION_SECONDS]) rfl
    (by norm_num [LEVEL1_FREQUENCY_WINDOW_SECONDS,
      LEVEL1_FREQUENCY_THRESHOLD])).trans (by decide)

/-- Claim C8: after any sequence of `process` calls from the fresh engine,
`yawn_timestamps` never contains the same timestamp twice; and the ingestion
phase is idempotent — ingesting a `yawn_timestamps` argument whose entries
are all already tracked leaves the engine (its `yawn_timestamps` and
`yawns_since_level1` included) completely unchanged, for every engine
state. -/
theorem C8_yawn_dedup :
    (∀ inputs : List ProcessInput,
      ((inputs.foldl processStep AlertEngine.init).yawn_timestamps).Nodup) ∧
    (∀ (e : AlertEngine) (args : List ℚ),
      (∀ ts ∈ args, ts ∈ e.yawn_timestamps) → ingestYawns e (some args) = e) := by
  constructor
  · have key : ∀ (l : List ProcessInput) (e : AlertEngine),
        e.yawn_timestamps.Nodup → ((l.foldl processStep e).yawn_timestamps).Nodup := by
      intro l
      induction l with
      | nil => exact fun _ h => h
      | cons i l ih =>
          intro e h
          simp only [List.foldl_cons]
          exact ih _ (process_yawns_nodup _ _ _ _ _ _ _ _ h)
    exact fun inputs => key inputs AlertEngine.init List.nodup_nil
  · have key : ∀ (args : List ℚ) (e : AlertEngine),
        (∀ ts ∈ args, ts ∈ e.yawn_timestamps) → args.foldl ingestYawnOne e = e := by
      intro args
      induction args with
      | nil => exact fun _ _ => rfl
      | cons a l ih =>
          intro e h
          have ha : ingestYawnOne e a = e := by
            unfold ingestYawnOne
            rw [if_pos (h a (by simp))]
          simp only [List.foldl_cons, ha]
          exact ih e fun ts hts => h ts (by simp [hts])
    exact fun e args h => key args e h

/-- Witness for C8's idempotent-ingestion part at a concrete engine: re-
ingesting timestamps 1 and 2, both already tracked, changes nothing. -/
theorem C8_yawn_dedup_witness :
    ingestYawns ⟨none, none, false, false, false, [1, 2], 0, [], none⟩ (some [1, 2]) =
      ⟨none, none, false, false, false, [1, 2], 0, [], none⟩ :=
  C8_yawn_dedup.2 ⟨none, none, false, false, false, [1, 2], 0, [], none⟩ [1, 2]
    (fun _ h => h)

/-- Witness for the amended C2 (Scenario E shape): with history [0,100,200]
and a drowsy frame at t=250, the engine escalates to Level 2 with the
frequent-recurrence reason even though Level 1 is not active. -/
theorem C2_amended_frequent_escalation_witness :
    (process { AlertEngine.init with level1_trigger_history := [0, 100, 200] }
        "DROWSY" 250 none none none 0 none).level2_active = true ∧
    (process { AlertEngine.init with level1_trigger_history := [0, 100, 200] }
        "DROWSY" 250 none none none 0 none).last_alert_reason =
      some "frequent Level 1 alerts" :=
  C2_amended_frequent_escalation
    { AlertEngine.init with level1_trigger_history := [0, 100, 200] }
    "DROWSY" 250 none none none
    (by norm_num [AlertEngine.init, LEVEL1_FREQUENCY_WINDOW_SECONDS,
      LEVEL1_FREQUENCY_THRESHOLD]) rfl (by decide)
